import Mathlib

/-!
Shallow embedding of the `ai-chat` koishi plugin (src/index.ts), covering the
conversation-context lifecycle, the truncation policy, the per-user
single-flight concurrency gate, the chat orchestrator and the token-usage
ledger, together with theorems settling the frozen claims about it.

Naming follows the source: `truncateContextIfNeeded`, `loadContext`,
`saveContext`, `chat`, `updateTokenUsage`, `activeChats`.
-/

namespace AIChat

/-- A chat message, matching the `Message` interface of the source:
`{ role: string; content: string }`. -/
structure Message where
  role : String
  content : String
deriving DecidableEq, Repr

/-- `context.reduce((acc, curr) => acc + curr.content.length, 0)`:
the sum of the character lengths of all message contents. -/
def contentLengthSum (context : List Message) : Nat :=
  context.foldl (fun acc curr => acc + curr.content.length) 0

/-- `truncateContextIfNeeded(context, maxTokens)` from the source:
`while (sum > maxTokens) truncatedContext.shift();` — repeatedly drop the
oldest (front) message while the total content length exceeds the budget.
There is no lower bound on the number of surviving messages: the loop also
removes a lone over-budget message, and stops on the empty list because the
empty sum 0 never exceeds the (non-negative) budget. -/
def truncateContextIfNeeded (context : List Message) (maxTokens : Nat) : List Message :=
  match context with
  | [] => []
  | m :: rest =>
    if contentLengthSum (m :: rest) > maxTokens then
      truncateContextIfNeeded rest maxTokens
    else m :: rest

/-! ## Input normalization

`session.content.trim().replace(/<[^>]*>/g, "")` — trim surrounding
whitespace first, then delete every substring that starts with `<`, runs over
characters other than `>`, and ends at the first following `>`. -/

/-- JavaScript `String.prototype.trim` whitespace class, restricted to the
ASCII whitespace characters (space, tab, line feed, carriage return,
vertical tab, form feed). -/
def isJsWhitespace (c : Char) : Bool :=
  c = ' ' || c = '\t' || c = '\n' || c = '\r' || c = '\x0b' || c = '\x0c'

/-- Drop the leading whitespace characters. -/
def trimLeftChars : List Char → List Char
  | [] => []
  | c :: rest => if isJsWhitespace c then trimLeftChars rest else c :: rest

/-- `s.trim()`: drop leading whitespace, then trailing whitespace (the
latter by reversing, dropping the now-leading whitespace, reversing back). -/
def jsTrim (s : List Char) : List Char :=
  ((trimLeftChars ((trimLeftChars s).reverse)).reverse)

/-- Skip characters up to and including the first `>` of the list; `none`
when the list holds no `>`. This is how far a regex match `<[^>]*>`
beginning just before the list would reach. -/
def dropThroughGt : List Char → Option (List Char)
  | [] => none
  | c :: rest => if c = '>' then some rest else dropThroughGt rest

/-- `replace(/<[^>]*>/g, "")`: scan left to right; at a `<`, if some later
`>` exists, the (greedy, leftmost) match `<[^>]*>` spans up to the first
such `>` and is deleted; a `<` with no later `>` matches nothing and is
kept. All other characters are kept. -/
def removeTags (l : List Char) : List Char :=
  match l with
  | [] => []
  | c :: rest =>
    if c = '<' then
      match h : dropThroughGt rest with
      | some rest' => removeTags rest'
      | none => c :: removeTags rest
    else c :: removeTags rest
termination_by l.length
decreasing_by
  · have hlen : ∀ (l l' : List Char), dropThroughGt l = some l' →
        l'.length < l.length := by
      intro l
      induction l with
      | nil => intro l' hh; simp [dropThroughGt] at hh
      | cons a as ih =>
        intro l' hh
        rw [dropThroughGt] at hh
        by_cases ha : a = '>'
        · simp [ha] at hh
          simp [← hh]
        · have := ih l' (by simpa [ha] using hh)
          simp
          omega
    have := hlen rest rest' h
    simp
    omega
  · simp
  · simp

/-- The Dispatcher's normalization:
`session.content.trim().replace(/<[^>]*>/g, "")`. -/
def normalizeInput (s : String) : String :=
  ⟨removeTags (jsTrim s.data)⟩

/-! ## Context Store

One JSON file per user under the context directory. A stored record either
parses back into a message list or is unparsable (`JSON.parse` throws). -/

/-- The on-disk conversation record for one user: either a serialized
message array, or bytes that `JSON.parse` rejects. -/
inductive ContextRecord where
  | valid (msgs : List Message)
  | corrupt
deriving DecidableEq, Repr

/-- Pointwise update of a keyed store. -/
def update {α : Type} (f : String → α) (k : String) (v : α) : String → α :=
  fun x => if x = k then v else f x

/-- `loadContext(uid)`: return the parsed record when the file exists, `[]`
when it does not (absence is not an error). `JSON.parse` on an unparsable
file throws — modelled as `.error ()`; nothing in `loadContext` catches it. -/
def loadContext (store : String → Option ContextRecord) (uid : String) :
    Except Unit (List Message) :=
  match store uid with
  | none => .ok []
  | some (.valid msgs) => .ok msgs
  | some .corrupt => .error ()

/-! ## Usage Ledger -/

/-- One row of the `ai_chat_token_usage` table (`AIChatTokenUsage`). -/
structure AIChatTokenUsage where
  id : String
  userName : String
  completionTokens : Int
  promptTokens : Int
  totalTokens : Int
  remark : String
deriving DecidableEq, Repr

/-- The `usage` object of a completion response body:
`{ completion_tokens, prompt_tokens, total_tokens }`. -/
structure Usage where
  completion_tokens : Int
  prompt_tokens : Int
  total_tokens : Int
deriving DecidableEq, Repr

/-- The ambient session/IO facts `updateTokenUsage` consults: the session's
username and platform, the outcome of the Feishu contact lookup (`.error`
when that HTTP call throws), and whether a database get/upsert rejects. -/
structure UsageEnv where
  username : String
  platform : String
  larkLookup : Except Unit String
  dbFails : Bool
deriving Repr

/-- `updateTokenUsage(session, usage)`. Reads the existing row (or the
zeroed default), resolves a display name (keep a non-empty stored name;
else the session username when it differs from the uid; else, on the lark
platform, the contact-lookup result), adds the three deltas and upserts
`{ id, userName, completionTokens, promptTokens, totalTokens }` — `remark`
is not among the written fields, so an upsert over an existing row keeps its
`remark`, and a fresh row gets the column default `""`. Every failure
(undefined `usage`, a throwing lookup, a rejecting database call) is caught
inside the function, leaving the table unchanged. -/
def updateTokenUsage (env : UsageEnv) (db : String → Option AIChatTokenUsage)
    (uid : String) (usage : Option Usage) : String → Option AIChatTokenUsage :=
  if env.dbFails then db
  else
    match usage with
    | none => db
    | some u =>
      let existingUserName := match db uid with
        | some e => e.userName
        | none => ""
      let resolved : Except Unit String :=
        if existingUserName = "" then
          if env.username ≠ uid then .ok env.username
          else if env.platform = "lark" then env.larkLookup
          else .ok existingUserName
        else .ok existingUserName
      match resolved with
      | .error _ => db
      | .ok userName =>
        match db uid with
        | some old =>
          update db uid (some
            { id := uid, userName := userName,
              completionTokens := old.completionTokens + u.completion_tokens,
              promptTokens := old.promptTokens + u.prompt_tokens,
              totalTokens := old.totalTokens + u.total_tokens,
              remark := old.remark })
        | none =>
          update db uid (some
            { id := uid, userName := userName,
              completionTokens := u.completion_tokens,
              promptTokens := u.prompt_tokens,
              totalTokens := u.total_tokens,
              remark := "" })

/-! ## Request Orchestrator (`chat`) -/

/-- The configuration fields the orchestrator core consumes. -/
structure ChatConfig where
  systemPrompt : String
  maxTokens : Nat
deriving DecidableEq, Repr

/-- Outcome of the single `fetch` to the completion endpoint, as `chat`
observes it: a non-2xx status (`response.ok` false), a 2xx response whose
body `response.json()` cannot parse, or a parsed body in which `usage` and
`choices[0].message.content` are each either present or missing. -/
inductive ApiResponse where
  | httpError (status : Nat) (statusText : String)
  | badJson
  | okBody (usage : Option Usage) (choicesText : Option String)
deriving DecidableEq, Repr

/-- The ambient facts one `chat` turn consults: the remote response, whether
`fs.writeFileSync` in `saveContext` throws, and the usage-ledger environment. -/
structure ChatEnv where
  response : ApiResponse
  saveFails : Bool
  usageEnv : UsageEnv

/-- The persistent state a turn can touch: conversation files and the
usage table. -/
structure ChatState where
  contexts : String → Option ContextRecord
  usageDb : String → Option AIChatTokenUsage

/-- The first step of context preparation:
`if (context.length > 0 && context[0].role === "system") context.shift();` —
drop a leading stale `system` message before anything else. -/
def dropLeadingSystem (context : List Message) : List Message :=
  match context with
  | m :: rest => if m.role = "system" then rest else m :: rest
  | [] => []

/-- Context preparation inside `chat`, in source order: drop a leading
`system` message, append the `user` message, truncate to `config.maxTokens`,
and only then — when `config.systemPrompt` is truthy, i.e. a non-empty
string — prepend the fresh `system` message `systemPrompt + "\n\n"`. -/
def prepareContext (cfg : ChatConfig) (loaded : List Message) (content : String) :
    List Message :=
  let context := dropLeadingSystem loaded
  let context := context ++ [⟨"user", content⟩]
  let context := truncateContextIfNeeded context cfg.maxTokens
  if cfg.systemPrompt ≠ "" then
    ⟨"system", cfg.systemPrompt ++ "\n\n"⟩ :: context
  else context

/-- One run of `chat(session, content)`, returning the reply string and the
state after the turn. `loadContext` is called before the `try` block, so an
unparsable record propagates out of `chat` (`.error ()`). Inside the `try`:
a non-ok status or unparsable body throws and is caught, returning `""` with
nothing written. On a parsed body, `updateTokenUsage(session, data.usage)`
is started (fire-and-forget, its effect lands regardless of what follows and
its own failures are swallowed internally); then `data.choices[0].message
.content` is read — if `choices` is missing this throws, caught, `""`.
Otherwise the assistant message is appended and `saveContext` runs: a
throwing write is caught, returning `""` with the conversation unsaved;
else the full sequence is persisted and the reply text returned. -/
def chat (cfg : ChatConfig) (env : ChatEnv) (st : ChatState)
    (uid content : String) : Except Unit (String × ChatState) :=
  match loadContext st.contexts uid with
  | .error e => .error e
  | .ok loaded =>
    let context := prepareContext cfg loaded content
    match env.response with
    | .httpError _ _ => .ok ("", st)
    | .badJson => .ok ("", st)
    | .okBody usage choicesText =>
      let st' : ChatState :=
        { st with usageDb := updateTokenUsage env.usageEnv st.usageDb uid usage }
      match choicesText with
      | none => .ok ("", st')
      | some text =>
        let finalContext := context ++ [⟨"assistant", text⟩]
        if env.saveFails then .ok ("", st')
        else .ok (text,
          { st' with contexts := update st'.contexts uid (some (.valid finalContext)) })

/-! ## Dispatcher middleware and Concurrency Gate -/

/-- What the middleware callback did with one inbound message. -/
inductive DispatchResult where
  | passedSelf
  | busyReply
  | passedEmpty
  | replied (text : String)
  | crashed
deriving DecidableEq, Repr

/-- The fallback sent when `chat` returned a falsy (empty) reply. -/
def fallbackMessage : String :=
  "哦哦，施法过程中似乎有点小小的波折🌀。稍等片刻，让我再次集中魔力尝试~"

/-- Whole in-process + persistent state visible to the middleware: the
`activeChats` in-flight map (a missing key reads as `false`) and the two
stores. -/
structure BotState where
  activeChats : String → Bool
  contexts : String → Option ContextRecord
  usageDb : String → Option AIChatTokenUsage

/-- The outcome of the middleware on one message: what was sent/returned,
the state afterwards, and the text handed to `chat` (when it was invoked). -/
structure DispatchOutcome where
  result : DispatchResult
  state : BotState
  chatInput : Option String

/-- The `ctx.middleware` callback, in source order: pass self-messages on;
reply busy when `activeChats` already holds the user; otherwise set the
in-flight flag, normalize the input, and — when it is empty — `return
next()` WITHOUT clearing the flag. Otherwise run `chat`: when it throws
(corrupt stored record) the `activeChats.delete` and `session.send` lines
are never reached; when it returns, the flag is deleted and the reply (or
the fallback for an empty reply) is sent. -/
def middleware (cfg : ChatConfig) (env : ChatEnv) (st : BotState)
    (uid content : String) (isSelfBot : Bool) : DispatchOutcome :=
  if isSelfBot then ⟨.passedSelf, st, none⟩
  else if st.activeChats uid then ⟨.busyReply, st, none⟩
  else
    let active1 := update st.activeChats uid true
    let input := normalizeInput content
    if input = "" then ⟨.passedEmpty, { st with activeChats := active1 }, none⟩
    else
      match chat cfg env ⟨st.contexts, st.usageDb⟩ uid input with
      | .error _ => ⟨.crashed, { st with activeChats := active1 }, some input⟩
      | .ok (text, cst) =>
        ⟨.replied (if text = "" then fallbackMessage else text),
         { activeChats := update active1 uid false,
           contexts := cst.contexts, usageDb := cst.usageDb }, some input⟩

/-! ## Derived views of the Usage Ledger -/

/-- The three counters of a user's row, zero when no row exists. -/
def countersAt (db : String → Option AIChatTokenUsage) (uid : String) :
    Int × Int × Int :=
  match db uid with
  | some r => (r.completionTokens, r.promptTokens, r.totalTokens)
  | none => (0, 0, 0)

/-- A sequence of `updateTokenUsage` calls for one user, applied in order. -/
def mergeAll (env : UsageEnv) (uid : String)
    (db0 : String → Option AIChatTokenUsage) (l : List Usage) :
    String → Option AIChatTokenUsage :=
  l.foldl (fun db u => updateTokenUsage env db uid (some u)) db0

/-- Element-wise sum of a sequence of usage deltas. -/
def deltaSum (l : List Usage) : Int × Int × Int :=
  ((l.map Usage.completion_tokens).sum,
   (l.map Usage.prompt_tokens).sum,
   (l.map Usage.total_tokens).sum)

/-! ## Concrete fixtures for counterexamples and witnesses -/

/-- A usage environment in which nothing external fails. -/
def usageEnv0 : UsageEnv := ⟨"Alice", "qq", .ok "looked-up", false⟩

/-- A configuration with no system prompt and the default budget. -/
def cfg0 : ChatConfig := ⟨"", 3000⟩

/-- A configuration whose current system prompt is `"NEW"`. -/
def cfgNew : ChatConfig := ⟨"NEW", 3000⟩

/-- A remote turn that fails with HTTP status 500. -/
def env0 : ChatEnv := ⟨.httpError 500 "Internal Server Error", false, usageEnv0⟩

/-- A 2xx response whose body carries usage counters but no `choices`. -/
def envMissingChoices : ChatEnv := ⟨.okBody (some ⟨1, 2, 3⟩) none, false, usageEnv0⟩

/-- A successful completion turn: reply `"re"`, everything persists. -/
def envReply : ChatEnv := ⟨.okBody (some ⟨1, 2, 3⟩) (some "re"), false, usageEnv0⟩

/-- A successful completion (reply `"hello"`) whose conversation save throws. -/
def envSaveFail : ChatEnv := ⟨.okBody (some ⟨1, 2, 3⟩) (some "hello"), true, usageEnv0⟩

/-- A successful completion (reply `"hello"`) whose usage persistence fails:
the contact lookup throws and the database rejects. -/
def envUsageFail : ChatEnv :=
  ⟨.okBody (some ⟨1, 2, 3⟩) (some "hello"), false, ⟨"alice", "lark", .error (), true⟩⟩

/-- Fresh process state: no in-flight flag, no stored files, no usage rows. -/
def emptyBotState : BotState := ⟨fun _ => false, fun _ => none, fun _ => none⟩

/-- Fresh persistent state alone. -/
def emptyChatState : ChatState := ⟨fun _ => none, fun _ => none⟩

/-- An existing usage row for `"alice"` whose `remark` column is `"vip"`. -/
def aliceRow : AIChatTokenUsage := ⟨"alice", "Alice", 10, 20, 30, "vip"⟩

/-- A usage table holding only `aliceRow`. -/
def dbAlice : String → Option AIChatTokenUsage :=
  update (fun _ => none) "alice" (some aliceRow)

/-- Persistent state with `aliceRow` in the usage table and no conversations. -/
def stAlice : ChatState := ⟨fun _ => none, dbAlice⟩

/-- A stale persisted conversation for `"alice"`, beginning with an old
system message. -/
def staleConversation : List Message :=
  [⟨"system", "OLD"⟩, ⟨"user", "q"⟩, ⟨"assistant", "a"⟩]

/-- Persistent state whose stored conversation for `"alice"` is
`staleConversation`. -/
def stStale : ChatState :=
  ⟨update (fun _ => none) "alice" (some (.valid staleConversation)), fun _ => none⟩

/-- Process state whose stored conversation record for `"alice"` exists but
does not parse. -/
def stCorrupt : BotState :=
  ⟨fun _ => false, update (fun _ => none) "alice" (some .corrupt), fun _ => none⟩

/-! ## Helper lemmas -/

/-- `contentLengthSum` as a mapped sum. -/
theorem contentLengthSum_eq_sum (context : List Message) :
    contentLengthSum context = (context.map (fun m => m.content.length)).sum := by
  have h : ∀ (l : List Message) (a : Nat),
      l.foldl (fun acc curr => acc + curr.content.length) a
        = a + (l.map (fun m => m.content.length)).sum := by
    intro l
    induction l with
    | nil => intro a; simp
    | cons x xs ih =>
      intro a
      simp only [List.foldl_cons, List.map_cons, List.sum_cons, ih]
      omega
  simpa [contentLengthSum] using h context 0

/-- The truncation loop ends with total content length within budget. -/
theorem truncate_le (context : List Message) (maxTokens : Nat) :
    contentLengthSum (truncateContextIfNeeded context maxTokens) ≤ maxTokens := by
  induction context with
  | nil => simp [truncateContextIfNeeded, contentLengthSum]
  | cons m rest ih =>
    rw [truncateContextIfNeeded]
    by_cases h : contentLengthSum (m :: rest) > maxTokens
    · simpa [h] using ih
    · simpa [h] using Nat.le_of_not_lt h

/-- The truncation result drops the oldest messages, and no shorter drop was
already within budget: the loop stops at the first suffix whose total
length is within the budget. -/
theorem truncate_drop (context : List Message) (maxTokens : Nat) :
    ∃ n, truncateContextIfNeeded context maxTokens = context.drop n ∧
      ∀ m < n, contentLengthSum (context.drop m) > maxTokens := by
  induction context with
  | nil => exact ⟨0, rfl, by omega⟩
  | cons x rest ih =>
    rw [truncateContextIfNeeded]
    by_cases h : contentLengthSum (x :: rest) > maxTokens
    · obtain ⟨n, hn, hmin⟩ := ih
      refine ⟨n + 1, by simpa [h] using hn, ?_⟩
      intro m hm
      match m with
      | 0 => simpa using h
      | Nat.succ k =>
        have hk : k < n := by omega
        simpa using hmin k hk
    · exact ⟨0, by simp [h], by omega⟩

/-! ## The claims -/

/-- C2, counterexample: `truncateContextIfNeeded` applied to a non-empty
conversation whose one message is over budget returns the empty
conversation — the claimed "a single remaining over-budget message is kept,
not removed" fails on the code, which has no one-message floor. -/
theorem C2_counterexample :
    truncateContextIfNeeded [⟨"user", "aaaa"⟩] 3 = [] ∧
    ([(⟨"user", "aaaa"⟩ : Message)] ≠ ([] : List Message)) := by
  constructor
  · decide
  · decide

/-- C2 (amended): `truncate(c, b)` repeatedly removes the oldest message
while the sum of the content lengths of the remaining messages exceeds `b`,
and stops exactly at the first point where the sum is within `b` — there is
no one-message floor, so the result can be empty (in particular a lone
over-budget message is removed); the function is total, hence terminates. -/
theorem C2_truncate (context : List Message) (maxTokens : Nat) :
    contentLengthSum (truncateContextIfNeeded context maxTokens) ≤ maxTokens ∧
    ∃ n, truncateContextIfNeeded context maxTokens = context.drop n ∧
      ∀ m < n, contentLengthSum (context.drop m) > maxTokens :=
  ⟨truncate_le context maxTokens, truncate_drop context maxTokens⟩

/-- C1: the claim fails in the code at a concrete admitted message. For a
user with a clear in-flight flag, an inbound `"<p>"` (whose normalized text
is empty) is admitted — the flag is set — but the empty-input path does
`return next()` without clearing `activeChats`, so after the middleware
returns the flag is still set and a later message from the same user is
rejected as busy instead of being granted acquisition. -/
theorem C1_flag_leak :
    emptyBotState.activeChats "alice" = false ∧
    (middleware cfg0 env0 emptyBotState "alice" "<p>" false).result
      = .passedEmpty ∧
    (middleware cfg0 env0 emptyBotState "alice" "<p>" false).state.activeChats
      "alice" = true ∧
    (middleware cfg0 env0
        (middleware cfg0 env0 emptyBotState "alice" "<p>" false).state
        "alice" "hello" false).result = .busyReply := by
  refine ⟨rfl, ?_, ?_, ?_⟩ <;>
    simp [middleware, emptyBotState, update, normalizeInput, jsTrim,
      trimLeftChars, isJsWhitespace, removeTags, dropThroughGt]

/-- C8: the Concurrency Gate. While a user's in-flight flag is set, a second
inbound message from that user is answered with the busy reply, the state is
untouched and `chat` is never invoked; and whenever the flag is clear (no
prior unreleased grant), the message is never rejected as busy —
acquisition is granted. -/
theorem C8_single_flight (cfg : ChatConfig) (env : ChatEnv) (st : BotState)
    (uid content : String) :
    (st.activeChats uid = true →
      middleware cfg env st uid content false = ⟨.busyReply, st, none⟩) ∧
    (st.activeChats uid = false →
      (middleware cfg env st uid content false).result ≠ .busyReply) := by
  constructor
  · intro h
    simp [middleware, h]
  · intro h
    rw [middleware]
    simp only [Bool.false_eq_true, if_false, h]
    by_cases he : normalizeInput content = ""
    · simp [he]
    · simp only [he, if_false]
      cases hc : chat cfg env ⟨st.contexts, st.usageDb⟩ uid (normalizeInput content) with
      | error e => simp
      | ok v => simp

/-- C9: whenever the Dispatcher hands a text to the `chat` orchestrator, that
text is exactly the raw message content trimmed of surrounding whitespace
with every `<`…`>` tag removed, and it is non-empty — a message whose text
normalizes to the empty string is never passed to `chat`. -/
theorem C9_normalized_input (cfg : ChatConfig) (env : ChatEnv) (st : BotState)
    (uid content : String) (isSelfBot : Bool) (t : String)
    (h : (middleware cfg env st uid content isSelfBot).chatInput = some t) :
    t = normalizeInput content ∧ t ≠ "" := by
  rw [middleware] at h
  by_cases hs : isSelfBot = true
  · simp [hs] at h
  · simp only [Bool.not_eq_true] at hs
    simp only [hs, Bool.false_eq_true, if_false] at h
    by_cases hb : st.activeChats uid = true
    · simp [hb] at h
    · simp only [Bool.not_eq_true] at hb
      simp only [hb, Bool.false_eq_true, if_false] at h
      by_cases he : normalizeInput content = ""
      · simp [he] at h
      · simp only [he, if_false] at h
        cases hc : chat cfg env ⟨st.contexts, st.usageDb⟩ uid (normalizeInput content) with
        | error e => rw [hc] at h; simp at h; exact ⟨h.symm, h ▸ he⟩
        | ok v => rw [hc] at h; simp at h; exact ⟨h.symm, h ▸ he⟩

/-- C9 witness: the message `"  hi <b>there</b> "` from a free user reaches
`chat` as the normalized text `"hi there"`, which is non-empty. -/
theorem C9_witness : "hi there" = normalizeInput "  hi <b>there</b> " ∧
    "hi there" ≠ "" :=
  C9_normalized_input cfg0 env0 emptyBotState "alice" "  hi <b>there</b> " false
    "hi there" (by
      simp [middleware, emptyBotState, update, normalizeInput, jsTrim,
        trimLeftChars, isJsWhitespace, removeTags, dropThroughGt, chat,
        loadContext, env0, cfg0])

/-- C3, counterexample: a 2xx response whose body carries usage counters but
no `choices` ends the turn in Failed (`chat` returns `""`), and the
persisted conversation is indeed untouched — but the user's usage counters
are NOT unchanged: `updateTokenUsage(session, data.usage)` has already run
by the time `data.choices[0]` throws, so the stored counters grow by the
deltas. -/
theorem C3_counterexample :
    ∃ stf, chat cfg0 envMissingChoices stAlice "alice" "hi" = .ok ("", stf) ∧
      stf.contexts "alice" = stAlice.contexts "alice" ∧
      (stf.usageDb "alice").map (fun r => r.completionTokens) = some 11 ∧
      (stAlice.usageDb "alice").map (fun r => r.completionTokens) = some 10 := by
  refine ⟨_, rfl, rfl, ?_, ?_⟩
  · simp [chat, stAlice, loadContext, envMissingChoices, updateTokenUsage,
      usageEnv0, dbAlice, update, aliceRow]
  · simp [stAlice, dbAlice, update, aliceRow]

/-- C3 (amended): a turn that fails because the completion endpoint returns
a non-2xx status (or a body `response.json()` cannot parse) leaves the whole
persisted state — conversation and usage counters — unchanged; a turn that
fails because a parsed body has no `choices` leaves the persisted
conversation unchanged, but the usage counters may already have been merged,
since `updateTokenUsage` runs before the reply text is read. -/
theorem C3_failed_turn (cfg : ChatConfig) (env : ChatEnv) (st : ChatState)
    (uid content : String) :
    (∀ status stext, env.response = .httpError status stext →
      chat cfg env st uid content = .error () ∨
      chat cfg env st uid content = .ok ("", st)) ∧
    (env.response = .badJson →
      chat cfg env st uid content = .error () ∨
      chat cfg env st uid content = .ok ("", st)) ∧
    (∀ u, env.response = .okBody u none →
      ∀ r stf, chat cfg env st uid content = .ok (r, stf) →
        r = "" ∧ stf.contexts = st.contexts) := by
  refine ⟨?_, ?_, ?_⟩
  · intro status stext hr
    rw [chat]
    cases hl : loadContext st.contexts uid with
    | error e => exact .inl (by cases e; rfl)
    | ok loaded => exact .inr (by simp [hr])
  · intro hr
    rw [chat]
    cases hl : loadContext st.contexts uid with
    | error e => exact .inl (by cases e; rfl)
    | ok loaded => exact .inr (by simp [hr])
  · intro u hr r stf hc
    rw [chat] at hc
    cases hl : loadContext st.contexts uid with
    | error e => rw [hl] at hc; simp at hc
    | ok loaded =>
      rw [hl] at hc
      simp only [hr] at hc
      simp at hc
      exact ⟨hc.1.symm, by rw [← hc.2]⟩

/-- C6, counterexample: a stored conversation record that exists but does
not parse makes `loadContext` throw; `chat` calls it outside its
`try`/`catch`, so the exception escapes the orchestrator, the turn does not
proceed, and the Dispatcher's send/release lines are never reached. -/
theorem C6_counterexample :
    chat cfg0 env0 ⟨stCorrupt.contexts, stCorrupt.usageDb⟩ "alice" "hi"
      = .error () ∧
    (middleware cfg0 env0 stCorrupt "alice" "hi" false).result = .crashed := by
  constructor
  · simp [chat, stCorrupt, loadContext, update]
  · simp [middleware, stCorrupt, update, normalizeInput, jsTrim, trimLeftChars,
      isJsWhitespace, removeTags, dropThroughGt, chat, loadContext]

/-- C6 (amended): `loadContext` returns the persisted message sequence, and
the empty sequence when no record exists (absence raises nothing); but a
read failure on an existing unparsable record is NOT treated as "no prior
context": `loadContext` throws, `chat` calls it before its `try` block, and
the exception escapes the orchestrator. -/
theorem C6_load (cfg : ChatConfig) (env : ChatEnv)
    (store : String → Option ContextRecord) (st : ChatState)
    (uid content : String) :
    (store uid = none → loadContext store uid = .ok []) ∧
    (∀ msgs, store uid = some (.valid msgs) → loadContext store uid = .ok msgs) ∧
    (st.contexts uid = some .corrupt →
      chat cfg env st uid content = .error ()) := by
  refine ⟨?_, ?_, ?_⟩
  · intro h; simp [loadContext, h]
  · intro msgs h; simp [loadContext, h]
  · intro h; simp [chat, loadContext, h]

/-- C4: on every successful turn with a non-empty configured system prompt,
the persisted conversation is the fresh system message (current prompt
followed by `"\n\n"`) in front of the truncated working sequence — the
loaded conversation with any leading system message dropped and the new user
message appended, truncated on its own, so the prompt's length is never
counted against the budget and the prompt is never truncated away — followed
by the assistant reply; in particular the first persisted message carries
the current configured prompt, never a stale persisted one. -/
theorem C4_fresh_system_prompt (cfg : ChatConfig) (env : ChatEnv)
    (st : ChatState) (uid content text : String) (u : Option Usage)
    (loaded : List Message)
    (hload : loadContext st.contexts uid = .ok loaded)
    (hresp : env.response = .okBody u (some text))
    (hsave : env.saveFails = false)
    (hprompt : cfg.systemPrompt ≠ "") :
    ∃ stf persisted,
      chat cfg env st uid content = .ok (text, stf) ∧
      stf.contexts uid = some (.valid persisted) ∧
      persisted.head? = some ⟨"system", cfg.systemPrompt ++ "\n\n"⟩ ∧
      persisted.tail = truncateContextIfNeeded
          (dropLeadingSystem loaded ++ [⟨"user", content⟩]) cfg.maxTokens
        ++ [⟨"assistant", text⟩] := by
  rw [chat, hload]
  simp only [hresp, hsave, Bool.false_eq_true, if_false]
  refine ⟨_, prepareContext cfg loaded content ++ [⟨"assistant", text⟩],
    rfl, ?_, ?_, ?_⟩
  · simp [update]
  · simp [prepareContext, hprompt]
  · simp [prepareContext, hprompt]

/-- C4 witness: from the stale conversation `[{system,"OLD"},{user,"q"},
{assistant,"a"}]` and current prompt `"NEW"`, a successful turn for input
`"hello"` with reply `"re"` persists a conversation whose first message is
`{system, "NEW\n\n"}` and whose tail is the truncated working sequence plus
the assistant reply. -/
theorem C4_witness :
    ∃ stf persisted,
      chat cfgNew envReply stStale "alice" "hello" = .ok ("re", stf) ∧
      stf.contexts "alice" = some (.valid persisted) ∧
      persisted.head? = some ⟨"system", cfgNew.systemPrompt ++ "\n\n"⟩ ∧
      persisted.tail = truncateContextIfNeeded
          (dropLeadingSystem staleConversation ++ [⟨"user", "hello"⟩])
          cfgNew.maxTokens
        ++ [⟨"assistant", "re"⟩] :=
  C4_fresh_system_prompt cfgNew envReply stStale "alice" "hello" "re"
    (some ⟨1, 2, 3⟩) staleConversation rfl rfl rfl (by decide)

/-- C5, counterexample: the remote call succeeds and the reply `"hello"` is
parsed, but the conversation save throws; `chat`'s outer catch swallows it
and returns `""`, so the Dispatcher sends the generic failure message — the
already-computed reply is NOT returned to the caller. -/
theorem C5_counterexample :
    (∃ stf, chat cfg0 envSaveFail emptyChatState "alice" "hi" = .ok ("", stf)) ∧
    (middleware cfg0 envSaveFail emptyBotState "alice" "hi" false).result
      = .replied fallbackMessage ∧
    fallbackMessage ≠ "hello" := by
  refine ⟨⟨_, rfl⟩, ?_, by decide⟩
  simp [middleware, emptyBotState, update, normalizeInput, jsTrim,
    trimLeftChars, isJsWhitespace, removeTags, dropThroughGt, chat,
    loadContext, envSaveFail, emptyChatState]

/-- C5 (amended): failures while persisting the usage row never affect the
returned reply — `updateTokenUsage` catches them internally, so for any
usage environment (a throwing contact lookup, a rejecting database) the
parsed reply text is still returned when the conversation save succeeds; but
when persisting the conversation record fails, `chat`'s catch replaces the
already-computed reply with the empty failure result (the conversation is
left unsaved), and the caller receives the generic failure message instead
of the reply. -/
theorem C5_reply_persistence (cfg : ChatConfig) (env : ChatEnv)
    (st : ChatState) (uid content text : String) (u : Option Usage)
    (loaded : List Message)
    (hload : loadContext st.contexts uid = .ok loaded)
    (hresp : env.response = .okBody u (some text)) :
    (env.saveFails = false →
      ∃ stf, chat cfg env st uid content = .ok (text, stf)) ∧
    (env.saveFails = true →
      ∃ stf, chat cfg env st uid content = .ok ("", stf) ∧
        stf.contexts = st.contexts) := by
  constructor
  · intro hs
    rw [chat, hload]
    simp only [hresp, hs, Bool.false_eq_true, if_false]
    exact ⟨_, rfl⟩
  · intro hs
    rw [chat, hload]
    simp only [hresp, hs, if_true]
    exact ⟨_, rfl, rfl⟩

/-- C5 witness: with a usage environment in which both the contact lookup
and the database fail, a successful remote call still returns the parsed
reply `"hello"` when the conversation save succeeds. -/
theorem C5_witness :
    (envUsageFail.saveFails = false →
      ∃ stf, chat cfg0 envUsageFail emptyChatState "alice" "hi"
        = .ok ("hello", stf)) ∧
    (envUsageFail.saveFails = true →
      ∃ stf, chat cfg0 envUsageFail emptyChatState "alice" "hi"
        = .ok ("", stf) ∧ stf.contexts = emptyChatState.contexts) :=
  C5_reply_persistence cfg0 envUsageFail emptyChatState "alice" "hi" "hello"
    (some ⟨1, 2, 3⟩) [] rfl rfl

/-- One successful `updateTokenUsage` call adds the deltas to the stored
counters of the user's row (zeroed defaults when no row exists). -/
theorem merge_step (env : UsageEnv) (db : String → Option AIChatTokenUsage)
    (uid nm : String) (u : Usage)
    (h1 : env.dbFails = false) (h2 : env.larkLookup = Except.ok nm) :
    countersAt (updateTokenUsage env db uid (some u)) uid =
      ((countersAt db uid).1 + u.completion_tokens,
       (countersAt db uid).2.1 + u.prompt_tokens,
       (countersAt db uid).2.2 + u.total_tokens) := by
  rw [updateTokenUsage]
  simp only [h1, Bool.false_eq_true, if_false]
  cases hdb : db uid with
  | some old =>
    simp only [hdb]
    by_cases hn : old.userName = ""
    · by_cases hu : env.username ≠ uid
      · simp [hn, hu, countersAt, update, hdb]
      · by_cases hp : env.platform = "lark"
        · simp [hn, hu, hp, h2, countersAt, update, hdb]
        · simp [hn, hu, hp, countersAt, update, hdb]
    · simp [hn, countersAt, update, hdb]
  | none =>
    simp only [hdb]
    by_cases hu : env.username ≠ uid
    · simp [hu, countersAt, update, hdb]
    · by_cases hp : env.platform = "lark"
      · simp [hu, hp, h2, countersAt, update, hdb]
      · simp [hu, hp, countersAt, update, hdb]

/-- A sequence of successful merges accumulates the element-wise sum of the
deltas on top of the starting counters. -/
theorem mergeAll_counters (env : UsageEnv) (uid nm : String)
    (h1 : env.dbFails = false) (h2 : env.larkLookup = Except.ok nm)
    (l : List Usage) (db0 : String → Option AIChatTokenUsage) :
    countersAt (mergeAll env uid db0 l) uid =
      ((countersAt db0 uid).1 + (deltaSum l).1,
       (countersAt db0 uid).2.1 + (deltaSum l).2.1,
       (countersAt db0 uid).2.2 + (deltaSum l).2.2) := by
  induction l generalizing db0 with
  | nil => simp [mergeAll, deltaSum]
  | cons u rest ih =>
    have hstep := merge_step env db0 uid nm u h1 h2
    have hrest := ih (updateTokenUsage env db0 uid (some u))
    rw [mergeAll] at hrest ⊢
    simp only [List.foldl_cons] at *
    rw [hrest, hstep]
    simp only [deltaSum, List.map_cons, List.sum_cons]
    refine Prod.ext ?_ (Prod.ext ?_ ?_) <;> simp <;> ring

/-- C7: the additive usage merge. When the external collaborators do not
fail, (i) each `updateTokenUsage` call sets the three counters of the row
keyed by the user identifier to the stored values (zeroed defaults when no
row exists) plus the respective deltas; (ii) after any sequence of merges
starting from no record the counters equal the element-wise sum of all
deltas; (iii) that outcome is independent of the order of the calls; and
(iv) a merge with non-negative deltas never decreases any counter. -/
theorem C7_usage_merge (env : UsageEnv) (uid nm : String) (l l' : List Usage)
    (h1 : env.dbFails = false) (h2 : env.larkLookup = Except.ok nm) :
    (∀ db u, countersAt (updateTokenUsage env db uid (some u)) uid =
      ((countersAt db uid).1 + u.completion_tokens,
       (countersAt db uid).2.1 + u.prompt_tokens,
       (countersAt db uid).2.2 + u.total_tokens)) ∧
    countersAt (mergeAll env uid (fun _ => none) l) uid = deltaSum l ∧
    (l.Perm l' →
      countersAt (mergeAll env uid (fun _ => none) l) uid =
        countersAt (mergeAll env uid (fun _ => none) l') uid) ∧
    (∀ db u, 0 ≤ u.completion_tokens → 0 ≤ u.prompt_tokens →
      0 ≤ u.total_tokens →
      (countersAt db uid).1
          ≤ (countersAt (updateTokenUsage env db uid (some u)) uid).1 ∧
      (countersAt db uid).2.1
          ≤ (countersAt (updateTokenUsage env db uid (some u)) uid).2.1 ∧
      (countersAt db uid).2.2
          ≤ (countersAt (updateTokenUsage env db uid (some u)) uid).2.2) := by
  have hsum : ∀ m : List Usage,
      countersAt (mergeAll env uid (fun _ => none) m) uid = deltaSum m := by
    intro m
    rw [mergeAll_counters env uid nm h1 h2 m]
    simp [countersAt]
  refine ⟨fun db u => merge_step env db uid nm u h1 h2, hsum l, ?_, ?_⟩
  · intro hperm
    rw [hsum l, hsum l']
    simp only [deltaSum]
    rw [(hperm.map Usage.completion_tokens).sum_eq,
      (hperm.map Usage.prompt_tokens).sum_eq,
      (hperm.map Usage.total_tokens).sum_eq]
  · intro db u hc hp ht
    rw [merge_step env db uid nm u h1 h2]
    refine ⟨?_, ?_, ?_⟩ <;> simp <;> omega

/-- C7 witness: from an empty table, merging the deltas (1,2,3) and then
(4,5,6) for `"alice"` yields the counters (5,7,9), the element-wise sum. -/
theorem C7_witness :
    countersAt (mergeAll usageEnv0 "alice" (fun _ => none)
      [⟨1, 2, 3⟩, ⟨4, 5, 6⟩]) "alice" = (5, 7, 9) := by
  have h := C7_usage_merge usageEnv0 "alice" "looked-up"
    [⟨1, 2, 3⟩, ⟨4, 5, 6⟩] [⟨4, 5, 6⟩, ⟨1, 2, 3⟩] rfl rfl
  rw [h.2.1]
  simp [deltaSum]

/-- C10: `updateTokenUsage` writes only the `id`, `userName` and the three
counter fields: the `remark` of an existing usage row is unchanged by every
merge (on every path, including the swallowed failure paths), and the rows
of every other user are untouched. -/
theorem C10_remark_untouched (env : UsageEnv)
    (db : String → Option AIChatTokenUsage) (uid : String) (u : Option Usage)
    (r : AIChatTokenUsage) (h : db uid = some r) :
    ((updateTokenUsage env db uid u) uid).map AIChatTokenUsage.remark
      = some r.remark ∧
    ∀ x, x ≠ uid → updateTokenUsage env db uid u x = db x := by
  rw [updateTokenUsage.eq_def]
  by_cases hf : env.dbFails = true
  · simp [hf, h]
  · simp only [Bool.not_eq_true] at hf
    simp only [hf, Bool.false_eq_true, if_false]
    cases u with
    | none => simp [h]
    | some u =>
      simp only [h]
      by_cases hn : r.userName = ""
      · by_cases hu : env.username ≠ uid
        · simp [hn, hu, update, h]
          intro x hx hx'
          exact absurd hx' hx
        · by_cases hp : env.platform = "lark"
          · cases hk : env.larkLookup with
            | error e => simp [hn, hu, hp, hk, h]
            | ok s =>
              simp [hn, hu, hp, hk, update, h]
              intro x hx hx'
              exact absurd hx' hx
          · simp [hn, hu, hp, update, h]
            intro x hx hx'
            exact absurd hx' hx
      · simp [hn, update, h]
        intro x hx hx'
        exact absurd hx' hx

/-- C10 witness: merging deltas (1,2,3) into the existing row for `"alice"`
(whose remark is `"vip"`) leaves the remark `"vip"` and every other user's
row unchanged. -/
theorem C10_witness :
    ((updateTokenUsage usageEnv0 dbAlice "alice" (some ⟨1, 2, 3⟩))
        "alice").map AIChatTokenUsage.remark = some "vip" ∧
    ∀ x, x ≠ "alice" →
      updateTokenUsage usageEnv0 dbAlice "alice" (some ⟨1, 2, 3⟩) x
        = dbAlice x :=
  C10_remark_untouched usageEnv0 dbAlice "alice" (some ⟨1, 2, 3⟩) aliceRow rfl

end AIChat
